import Mathlib

/-!
Verification of the provider/normalization core of the `stormlightlabs/weather`
repository (Go), as a shallow embedding in Lean 4.

Conventions of the embedding:
* Go `float64` values are modelled as `ℚ` (the numeric claims are about exact
  rational results such as 1013.25 or multiples of 22.5, all of which are
  exact in binary floating point as well, and the code performs only single
  passes of `+ - * /` on them).
* Go `time.Time` is modelled as an abstract instant `Int`; the standard
  library's RFC3339 parser (`time.Parse`) and `time.Now()` are external
  collaborators and enter as parameters `parse : String → Option Int`
  and `now : Int`.
* Fallible Go functions returning `(T, error)` become `Except String T`,
  with the exact `fmt.Errorf` message texts (wrapped causes appended).
* Each upstream HTTP fetch (request + status check + top-level JSON decode,
  i.e. `makeRequest` followed by `json.Unmarshal`) is an external effect; its
  outcome for the call at hand enters as an `Except String _` parameter.
* Go string helpers (`strings.Fields`, `strings.TrimSpace`, `strings.ToUpper`,
  `strings.ToLower`, `strconv.Atoi`) are reimplemented below over the ASCII
  range they are exercised on.
-/

namespace Weather

/-- Go `unicode.IsSpace` restricted to the ASCII whitespace characters
(space, \t, \n, \v, \f, \r). -/
def goIsSpace (c : Char) : Bool :=
  c = ' ' || c = '\t' || c = '\n' || c = '\r' || c.toNat = 11 || c.toNat = 12

/-- Splitter for `strings.Fields`: walk the character list, accumulating the
current field (reversed) and emitting it at each whitespace run. -/
def goFieldsAux : List Char → List Char → List String
  | [], acc => if acc.isEmpty then [] else [String.mk acc.reverse]
  | c :: cs, acc =>
    if goIsSpace c then
      if acc.isEmpty then goFieldsAux cs []
      else String.mk acc.reverse :: goFieldsAux cs []
    else goFieldsAux cs (c :: acc)

/-- Go `strings.Fields`: substrings between maximal runs of whitespace. -/
def goFields (s : String) : List String :=
  goFieldsAux s.data []

/-- ASCII lower-casing of one character (Go `unicode.ToLower` on ASCII). -/
def goLowerChar (c : Char) : Char :=
  if 'A' ≤ c ∧ c ≤ 'Z' then Char.ofNat (c.toNat + 32) else c

/-- Go `strings.ToLower` (ASCII range). -/
def goToLower (s : String) : String :=
  String.mk (s.data.map goLowerChar)

/-- ASCII upper-casing of one character (Go `unicode.ToUpper` on ASCII). -/
def goUpperChar (c : Char) : Char :=
  if 'a' ≤ c ∧ c ≤ 'z' then Char.ofNat (c.toNat - 32) else c

/-- Go `strings.ToUpper` (ASCII range). -/
def goToUpper (s : String) : String :=
  String.mk (s.data.map goUpperChar)

/-- Go `strings.TrimSpace` (ASCII whitespace). -/
def goTrim (s : String) : String :=
  String.mk (((s.data.dropWhile goIsSpace).reverse.dropWhile goIsSpace).reverse)

/-- ASCII decimal digit test. -/
def goIsDigit (c : Char) : Bool :=
  '0' ≤ c && c ≤ '9'

/-- Value of a decimal digit string. -/
def goDigitsVal (l : List Char) : Nat :=
  l.foldl (fun a c => a * 10 + (c.toNat - 48)) 0

/-- Go `strconv.Atoi`: optional sign followed by one or more decimal digits
(the whole string must be consumed). Overflow of the machine `int` is not
modelled; the adapter feeds it small wind-speed magnitudes. -/
def goAtoi (s : String) : Option Int :=
  match s.data with
  | [] => none
  | '-' :: ds =>
    if !ds.isEmpty && ds.all goIsDigit then some (-(goDigitsVal ds : Int))
    else none
  | '+' :: ds =>
    if !ds.isEmpty && ds.all goIsDigit then some ((goDigitsVal ds : Int))
    else none
  | ds =>
    if ds.all goIsDigit then some ((goDigitsVal ds : Int))
    else none

/-! ## Canonical data model (`internal/models/models.go`) -/

/-- `models.Forecast` (db/bookkeeping fields included; Go zero values are the
field defaults, matching `&models.Forecast{...}` construction). -/
structure Forecast where
  id : Int := 0
  cityID : Int := 0
  sourceProvider : String := ""
  forecastTime : Int := 0
  validTime : Int := 0
  temperature : ℚ := 0
  feelsLike : ℚ := 0
  humidity : ℚ := 0
  pressure : ℚ := 0
  windSpeed : ℚ := 0
  windDirection : ℚ := 0
  visibility : ℚ := 0
  cloudCover : ℚ := 0
  precipitation : ℚ := 0
  weatherCode : String := ""
  description : String := ""
  uvIndex : ℚ := 0
  createdAt : Int := 0
  updatedAt : Int := 0
  deriving Repr, DecidableEq

/-- `models.Place` (Go zero values as defaults). -/
structure Place where
  id : Int := 0
  displayName : String := ""
  addressLine1 : String := ""
  addressLine2 : String := ""
  city : String := ""
  region : String := ""
  postalCode : String := ""
  country : String := ""
  countryCode : String := ""
  latitude : ℚ := 0
  longitude : ℚ := 0
  placeType : String := ""
  confidence : ℚ := 0
  source : String := ""
  sourcePlaceID : String := ""
  boundingBox : String := ""
  createdAt : Int := 0
  updatedAt : Int := 0
  deriving Repr, DecidableEq

/-- The data-model invariant stated in the spec for `Forecast`:
temperature ≥ −273.15 °C, humidity ∈ [0,100], cloud cover ∈ [0,100],
wind direction ∈ [0,360). -/
def forecastInvariant (f : Forecast) : Prop :=
  -27315/100 ≤ f.temperature ∧
  0 ≤ f.humidity ∧ f.humidity ≤ 100 ∧
  0 ≤ f.cloudCover ∧ f.cloudCover ≤ 100 ∧
  0 ≤ f.windDirection ∧ f.windDirection < 360

instance (f : Forecast) : Decidable (forecastInvariant f) := by
  unfold forecastInvariant; infer_instance

/-! ## NWS provider response structures (`internal/providers`, NWS file) -/

structure NWSPointProperties where
  gridID : String := ""
  gridX : Int := 0
  gridY : Int := 0
  forecast : String := ""
  forecastHourly : String := ""
  observationStations : String := ""
  deriving Repr, DecidableEq

structure NWSPointResponse where
  properties : NWSPointProperties
  deriving Repr, DecidableEq

structure NWSForecastPeriod where
  number : Int := 0
  name : String := ""
  startTime : String := ""
  endTime : String := ""
  isDaytime : Bool := false
  temperature : Int := 0
  temperatureUnit : String := ""
  windSpeed : String := ""
  windDirection : String := ""
  icon : String := ""
  shortForecast : String := ""
  detailedForecast : String := ""
  deriving Repr, DecidableEq

structure NWSForecastProperties where
  periods : List NWSForecastPeriod := []
  deriving Repr, DecidableEq

structure NWSForecastResponse where
  properties : NWSForecastProperties
  deriving Repr, DecidableEq

/-- `NWSObservationProperties`: each `NWSQuantitativeValue` carries
`Value *float64`, i.e. an optional number, modelled as `Option ℚ`. -/
structure NWSObservationProperties where
  timestamp : String := ""
  temperature : Option ℚ := none
  dewpoint : Option ℚ := none
  windDirection : Option ℚ := none
  windSpeed : Option ℚ := none
  barometricPressure : Option ℚ := none
  relativeHumidity : Option ℚ := none
  visibility : Option ℚ := none
  textDescription : String := ""
  deriving Repr, DecidableEq

structure NWSObservationResponse where
  properties : NWSObservationProperties
  deriving Repr, DecidableEq

/-! ## NWS converters -/

/-- The `directions` map literal of `NWSProvider.parseWindDirection`
(association list; the Go map has pairwise-distinct keys, so `List.lookup`
has the same semantics as the map lookup). Values are exact rationals:
22.5 = 45/2, 67.5 = 135/2, and so on. -/
def nwsDirections : List (String × ℚ) :=
  [("N", 0), ("NNE", 45/2), ("NE", 45), ("ENE", 135/2),
   ("E", 90), ("ESE", 225/2), ("SE", 135), ("SSE", 315/2),
   ("S", 180), ("SSW", 405/2), ("SW", 225), ("WSW", 495/2),
   ("W", 270), ("WNW", 585/2), ("NW", 315), ("NNW", 675/2)]

/-- `NWSProvider.parseWindDirection`: 16-point compass abbreviation, matched
after `strings.ToUpper` against the `directions` map; unknown input defaults
to 0 (north). -/
def parseWindDirection (direction : String) : ℚ :=
  match nwsDirections.lookup (goToUpper direction) with
  | some deg => deg
  | none => 0

/-- `NWSProvider.observationToForecast`. `parse` is `time.Parse(time.RFC3339, ·)`,
`now` is `time.Now()`. -/
def observationToForecast (parse : String → Option Int) (now : Int)
    (obs : NWSObservationResponse) : Except String Forecast :=
  let ts := obs.properties.timestamp
  let timestamp? : Except String Int :=
    if ts ≠ "" then
      match parse ts with
      | some t => .ok t
      | none => .error "failed to parse timestamp"
    else .ok now
  match timestamp? with
  | .error e => .error e
  | .ok timestamp =>
      .ok { sourceProvider := "NWS"
            forecastTime := timestamp
            validTime := timestamp
            description := obs.properties.textDescription
            createdAt := now
            updatedAt := now
            temperature := (obs.properties.temperature).getD 0
            humidity := (obs.properties.relativeHumidity).getD 0
            pressure := ((obs.properties.barometricPressure).map (· / 100)).getD 0
            windSpeed := (obs.properties.windSpeed).getD 0
            windDirection := (obs.properties.windDirection).getD 0
            visibility := ((obs.properties.visibility).map (· / 1000)).getD 0 }

/-- `NWSProvider.periodToForecast`. Both timestamps must parse as RFC3339;
temperature converts F→C when the unit tag is `"F"`; wind speed is parsed
from the free-text field only when it splits into at least two whitespace
tokens and the first passes `strconv.Atoi` (mph→m/s via ×0.44704). -/
def periodToForecast (parse : String → Option Int) (now : Int)
    (period : NWSForecastPeriod) : Except String Forecast :=
  match parse period.startTime with
  | none => .error "failed to parse start time"
  | some startT =>
    match parse period.endTime with
    | none => .error "failed to parse end time"
    | some _ =>
      .ok { sourceProvider := "NWS"
            forecastTime := now
            validTime := startT
            description := period.detailedForecast
            createdAt := now
            updatedAt := now
            temperature :=
              if period.temperatureUnit = "F" then
                ((period.temperature : ℚ) - 32) * 5 / 9
              else (period.temperature : ℚ)
            windSpeed :=
              if period.windSpeed ≠ "" then
                match goFields period.windSpeed with
                | t :: _ :: _ =>
                  match goAtoi t with
                  | some speed => (speed : ℚ) * (44704/100000)
                  | none => 0
                | _ => 0
              else 0
            windDirection := parseWindDirection period.windDirection }

/-! ## NWS public operations

The HTTP stages are parameters: `grid` is the outcome of `getGridPoint`
(request + decode of the point response), `fetchF`/`decodeF` the forecast
request keyed by the forecast URL embedded in the point response and its
top-level decode, `stationsFor` the stations request + decode (yielding the
`stationIdentifier` list) keyed by the grid coordinates, and `obsFor` the
latest-observation request + decode keyed by the station id. -/

/-- `NWSProvider.GetForecast` from the grid-point stage onward. -/
def getForecast (parse : String → Option Int) (now : Int)
    (grid : Except String NWSPointResponse)
    (fetchF : String → Except String String)
    (decodeF : String → Except String NWSForecastResponse)
    (days : Int) : Except String (List Forecast) :=
  match grid with
  | .error e => .error ("failed to get grid point: " ++ e)
  | .ok point =>
    match fetchF point.properties.forecast with
    | .error e => .error ("failed to get forecast: " ++ e)
    | .ok raw =>
      match decodeF raw with
      | .error e => .error ("failed to parse forecast response: " ++ e)
      | .ok forecastResp =>
        let periods := forecastResp.properties.periods
        let maxPeriods : Int := min (days * 2) (periods.length : Int)
        .ok ((periods.take maxPeriods.toNat).filterMap
          (fun p => (periodToForecast parse now p).toOption))

/-- `NWSProvider.GetCurrentWeather` from the grid-point stage onward. -/
def getCurrentWeather (parse : String → Option Int) (now : Int)
    (grid : Except String NWSPointResponse)
    (stationsFor : String → Int → Int → Except String (List String))
    (obsFor : String → Except String NWSObservationResponse) :
    Except String Forecast :=
  match grid with
  | .error e => .error ("failed to get grid point: " ++ e)
  | .ok point =>
    match stationsFor point.properties.gridID point.properties.gridX
        point.properties.gridY with
    | .error e => .error ("failed to get observation stations: " ++ e)
    | .ok stations =>
      match stations with
      | [] => .error "no observation stations found"
      | stationID :: _ =>
        match obsFor stationID with
        | .error e => .error ("failed to get current observation: " ++ e)
        | .ok obsResp => observationToForecast parse now obsResp

/-! ## Census geocoding provider (`internal/providers`, Census file) -/

structure CensusCoordinates where
  x : ℚ := 0
  y : ℚ := 0
  deriving Repr, DecidableEq

structure CensusTigerLine where
  side : String := ""
  tigerLineId : String := ""
  deriving Repr, DecidableEq

structure CensusAddressComponents where
  zip : String := ""
  streetName : String := ""
  preType : String := ""
  city : String := ""
  preDirection : String := ""
  suffixDirection : String := ""
  fromAddress : String := ""
  state : String := ""
  suffixType : String := ""
  toAddress : String := ""
  suffixQualifier : String := ""
  preQualifier : String := ""
  deriving Repr, DecidableEq

structure CensusAddressMatch where
  matchedAddress : String := ""
  coordinates : CensusCoordinates := {}
  tigerLine : CensusTigerLine := {}
  addressComponents : CensusAddressComponents := {}
  deriving Repr, DecidableEq

structure CensusResult where
  addressMatches : List CensusAddressMatch := []
  deriving Repr, DecidableEq

structure CensusGeocodeResponse where
  result : CensusResult
  deriving Repr, DecidableEq

structure CensusReverseMatch where
  matchedAddress : String := ""
  addressComponents : CensusAddressComponents := {}
  tigerLine : CensusTigerLine := {}
  coordinates : CensusCoordinates := {}
  deriving Repr, DecidableEq

structure CensusReverseResult where
  addressMatches : List CensusReverseMatch := []
  deriving Repr, DecidableEq

structure CensusReverseGeocodeResponse where
  result : CensusReverseResult
  deriving Repr, DecidableEq

/-- `CensusProvider.buildAddressLine1`: conditionally append each non-empty
component in the source's fixed order, then join with single spaces. -/
def buildAddressLine1 (components : CensusAddressComponents) : String :=
  let parts : List String := []
  let parts :=
    if components.fromAddress ≠ "" then
      if components.toAddress ≠ "" ∧ components.toAddress ≠ components.fromAddress then
        parts ++ [components.fromAddress ++ "-" ++ components.toAddress]
      else
        parts ++ [components.fromAddress]
    else parts
  let parts := if components.preDirection ≠ "" then parts ++ [components.preDirection] else parts
  let parts := if components.preType ≠ "" then parts ++ [components.preType] else parts
  let parts := if components.streetName ≠ "" then parts ++ [components.streetName] else parts
  let parts := if components.suffixType ≠ "" then parts ++ [components.suffixType] else parts
  let parts := if components.suffixDirection ≠ "" then parts ++ [components.suffixDirection] else parts
  let parts := if components.preQualifier ≠ "" then parts ++ [components.preQualifier] else parts
  let parts := if components.suffixQualifier ≠ "" then parts ++ [components.suffixQualifier] else parts
  String.intercalate " " parts

/-- `CensusProvider.calculateConfidence`: word-overlap similarity between the
lower-cased, trimmed original query and matched address. -/
def calculateConfidence (original matched : String) : ℚ :=
  let original := goToLower (goTrim original)
  let matched := goToLower (goTrim matched)
  if original = matched then 1
  else
    let originalWords := goFields original
    let matchedWords := goFields matched
    let commonWords : Nat :=
      originalWords.countP (fun w => matchedWords.contains w)
    if originalWords.length = 0 then 1/2
    else
      let similarity : ℚ := (commonWords : ℚ) / (originalWords.length : ℚ)
      if similarity < 1/10 then 1/10
      else if similarity > 19/20 then 19/20
      else similarity

/-- `CensusProvider.addressMatchToPlace` (returns `error` in its signature but
never fails). -/
def addressMatchToPlace (now : Int) (m : CensusAddressMatch)
    (originalAddress : String) : Except String Place :=
  .ok { displayName := m.matchedAddress
        addressLine1 := buildAddressLine1 m.addressComponents
        city := m.addressComponents.city
        region := m.addressComponents.state
        postalCode := m.addressComponents.zip
        country := "United States"
        countryCode := "US"
        latitude := m.coordinates.y
        longitude := m.coordinates.x
        placeType := "address"
        confidence := calculateConfidence originalAddress m.matchedAddress
        source := "Census"
        sourcePlaceID := m.tigerLine.tigerLineId
        createdAt := now
        updatedAt := now }

/-- `CensusProvider.reverseMatchToPlace`: confidence hard-coded to 0.9. -/
def reverseMatchToPlace (now : Int) (m : CensusReverseMatch) (lat lon : ℚ) :
    Except String Place :=
  .ok { displayName := m.matchedAddress
        addressLine1 := buildAddressLine1 m.addressComponents
        city := m.addressComponents.city
        region := m.addressComponents.state
        postalCode := m.addressComponents.zip
        country := "United States"
        countryCode := "US"
        latitude := lat
        longitude := lon
        placeType := "address"
        confidence := 9/10
        source := "Census"
        sourcePlaceID := m.tigerLine.tigerLineId
        createdAt := now
        updatedAt := now }

/-- `CensusProvider.GeocodeAddress` from the single HTTP request onward:
`fetchRes` is the outcome of `makeRequest` for this request, `decode` the
operation-specific `json.Unmarshal`. -/
def geocodeAddress (now : Int)
    (fetchRes : Except String String)
    (decode : String → Except String CensusGeocodeResponse)
    (address : String) : Except String (List Place) :=
  match fetchRes with
  | .error e => .error ("geocoding request failed: " ++ e)
  | .ok data =>
    match decode data with
    | .error e => .error ("failed to parse geocoding response: " ++ e)
    | .ok response =>
      let places := response.result.addressMatches.filterMap
        (fun m => (addressMatchToPlace now m address).toOption)
      if places.length = 0 then
        .error ("no geocoding results found for address: " ++ address)
      else
        .ok places

/-- `CensusProvider.ReverseGeocode` from the single HTTP request onward;
`fmtF` is Go's `fmt.Sprintf("%f", ·)` float formatting (external). -/
def reverseGeocode (fmtF : ℚ → String) (now : Int)
    (fetchRes : Except String String)
    (decode : String → Except String CensusReverseGeocodeResponse)
    (lat lon : ℚ) : Except String Place :=
  match fetchRes with
  | .error e => .error ("reverse geocoding request failed: " ++ e)
  | .ok data =>
    match decode data with
    | .error e => .error ("failed to parse reverse geocoding response: " ++ e)
    | .ok response =>
      match response.result.addressMatches with
      | [] => .error ("no reverse geocoding results found for coordinates: "
          ++ fmtF lat ++ ", " ++ fmtF lon)
      | m :: _ => reverseMatchToPlace now m lat lon

/-! ## Cache-aside layer (`internal/repo`, RequestCache) -/

/-- The abstract byte-oriented key-value store (`repo.KVStore`). Each field is
the store's response to one call; state evolution is outside this layer, which
only forwards single calls. `CacheErr := String` stands for an opaque `error`,
`Bytes := List Nat` for `[]byte`, `Duration := Int` for `time.Duration`. -/
structure KVStore where
  Get : String → Except String (List Nat)
  Set : String → List Nat → Int → Except String Unit
  Delete : String → Except String Unit
  Exists : String → Except String Bool
  SetNX : String → List Nat → Int → Except String Bool
  GetTTL : String → Except String Int
  Clear : Except String Unit
  Close : Except String Unit

/-- `repo.RequestCache`: a store plus a namespace prefix (Go field `prefix`). -/
structure RequestCache where
  store : KVStore
  prefixStr : String

/-- `RequestCache.prefixKey`. -/
def RequestCache.prefixKey (c : RequestCache) (key : String) : String :=
  if c.prefixStr = "" then key
  else c.prefixStr ++ ":" ++ key

def RequestCache.Get (c : RequestCache) (key : String) : Except String (List Nat) :=
  c.store.Get (c.prefixKey key)

def RequestCache.Set (c : RequestCache) (key : String) (value : List Nat)
    (ttl : Int) : Except String Unit :=
  c.store.Set (c.prefixKey key) value ttl

def RequestCache.Delete (c : RequestCache) (key : String) : Except String Unit :=
  c.store.Delete (c.prefixKey key)

def RequestCache.Exists (c : RequestCache) (key : String) : Except String Bool :=
  c.store.Exists (c.prefixKey key)

def RequestCache.SetNX (c : RequestCache) (key : String) (value : List Nat)
    (ttl : Int) : Except String Bool :=
  c.store.SetNX (c.prefixKey key) value ttl

def RequestCache.GetTTL (c : RequestCache) (key : String) : Except String Int :=
  c.store.GetTTL (c.prefixKey key)

def RequestCache.Clear (c : RequestCache) : Except String Unit :=
  c.store.Clear

def RequestCache.Close (c : RequestCache) : Except String Unit :=
  c.store.Close

/-! ## Spec-side definitions (written from the specification's wording, for
refinement-style comparison with the code-side functions above) -/

/-- The 16-point compass table with the degree values documented in the spec
(N=0, NNE=22.5, NE=45, … in 22.5° increments up to NNW=337.5). -/
def compassTable : List (String × ℚ) :=
  [("N", 0), ("NNE", 45/2), ("NE", 45), ("ENE", 135/2),
   ("E", 90), ("ESE", 225/2), ("SE", 135), ("SSE", 315/2),
   ("S", 180), ("SSW", 405/2), ("SW", 225), ("WSW", 495/2),
   ("W", 270), ("WNW", 585/2), ("NW", 315), ("NNW", 675/2)]

/-- Spec wording for the house-number-range component: `"{from}-{to}"` when
the to-address is non-empty and differs from the from-address, else
`"{from}"`; empty when there is no from-address. -/
def houseRangeSpec (c : CensusAddressComponents) : String :=
  if c.fromAddress = "" then ""
  else if c.toAddress ≠ "" ∧ c.toAddress ≠ c.fromAddress then
    c.fromAddress ++ "-" ++ c.toAddress
  else c.fromAddress

/-- Spec wording for the address line: exactly the non-empty components, in
the fixed documented order. -/
def addressPartsSpec (c : CensusAddressComponents) : List String :=
  [houseRangeSpec c, c.preDirection, c.preType, c.streetName,
   c.suffixType, c.suffixDirection, c.preQualifier,
   c.suffixQualifier].filter (fun t => t ≠ "")

/-! ## Helper lemmas -/

theorem lookup_some_mem_values {α β : Type} [BEq α] :
    ∀ {l : List (α × β)} {a : α} {b : β},
      l.lookup a = some b → b ∈ l.map Prod.snd
  | [], _, _, h => by simp [List.lookup] at h
  | (k, v) :: t, a, b, h => by
    rw [List.lookup] at h
    cases hk : a == k with
    | true =>
      rw [hk] at h
      injection h with h
      simp [h]
    | false =>
      rw [hk] at h
      simp only [List.map_cons, List.mem_cons]
      exact Or.inr (lookup_some_mem_values h)

theorem lookup_eq_none_of_not_mem_keys {α β : Type} [BEq α] [LawfulBEq α] :
    ∀ {l : List (α × β)} {a : α},
      a ∉ l.map Prod.fst → l.lookup a = none
  | [], _, _ => rfl
  | (k, v) :: t, a, h => by
    rw [List.lookup]
    simp only [List.map_cons, List.mem_cons, not_or] at h
    have hk : (a == k) = false := beq_eq_false_iff_ne.mpr h.1
    rw [hk]
    exact lookup_eq_none_of_not_mem_keys h.2

theorem parseWindDirection_range (s : String) :
    0 ≤ parseWindDirection s ∧ parseWindDirection s < 360 := by
  unfold parseWindDirection
  cases h : nwsDirections.lookup (goToUpper s) with
  | none => norm_num
  | some deg =>
    have hmem := lookup_some_mem_values h
    simp only [nwsDirections, List.map_cons, List.map_nil, List.mem_cons,
      List.not_mem_nil, or_false] at hmem
    rcases hmem with h' | h' | h' | h' | h' | h' | h' | h' |
      h' | h' | h' | h' | h' | h' | h' | h' <;> rw [h'] <;> norm_num

theorem length_filterMap_eq_countP {α β : Type} (f : α → Option β) :
    ∀ l : List α, (l.filterMap f).length = l.countP (fun a => (f a).isSome)
  | [] => rfl
  | a :: l => by
    cases h : f a with
    | none =>
      simp [List.filterMap_cons, List.countP_cons, h,
        length_filterMap_eq_countP f l]
    | some b =>
      simp [List.filterMap_cons, List.countP_cons, h,
        length_filterMap_eq_countP f l]

/-- Destructor for a successful `periodToForecast`. -/
theorem periodToForecast_eq_ok {parse : String → Option Int} {now : Int}
    {p : NWSForecastPeriod} {f : Forecast}
    (h : periodToForecast parse now p = .ok f) :
    ∃ startT endT, parse p.startTime = some startT ∧
      parse p.endTime = some endT ∧
      f = { sourceProvider := "NWS"
            forecastTime := now
            validTime := startT
            description := p.detailedForecast
            createdAt := now
            updatedAt := now
            temperature :=
              if p.temperatureUnit = "F" then
                ((p.temperature : ℚ) - 32) * 5 / 9
              else (p.temperature : ℚ)
            windSpeed :=
              if p.windSpeed ≠ "" then
                match goFields p.windSpeed with
                | t :: _ :: _ =>
                  match goAtoi t with
                  | some speed => (speed : ℚ) * (44704/100000)
                  | none => 0
                | _ => 0
              else 0
            windDirection := parseWindDirection p.windDirection } := by
  unfold periodToForecast at h
  cases hs : parse p.startTime with
  | none => rw [hs] at h; exact absurd h (by simp)
  | some startT =>
    rw [hs] at h
    cases he : parse p.endTime with
    | none => rw [he] at h; exact absurd h (by simp)
    | some endT =>
      rw [he] at h
      refine ⟨startT, endT, rfl, rfl, ?_⟩
      injection h with h'
      exact h'.symm

/-- `periodToForecast` succeeds exactly when both timestamps parse. -/
theorem periodToForecast_isSome (parse : String → Option Int) (now : Int)
    (p : NWSForecastPeriod) :
    (periodToForecast parse now p).toOption.isSome
      = ((parse p.startTime).isSome && (parse p.endTime).isSome) := by
  unfold periodToForecast
  cases parse p.startTime <;> cases parse p.endTime <;> rfl

/-- Destructor for a successful `observationToForecast`. -/
theorem observationToForecast_eq_ok {parse : String → Option Int} {now : Int}
    {obs : NWSObservationResponse} {f : Forecast}
    (h : observationToForecast parse now obs = .ok f) :
    ∃ timestamp,
      ((obs.properties.timestamp = "" ∧ timestamp = now) ∨
        (obs.properties.timestamp ≠ "" ∧
          parse obs.properties.timestamp = some timestamp)) ∧
      f = { sourceProvider := "NWS"
            forecastTime := timestamp
            validTime := timestamp
            description := obs.properties.textDescription
            createdAt := now
            updatedAt := now
            temperature := (obs.properties.temperature).getD 0
            humidity := (obs.properties.relativeHumidity).getD 0
            pressure := ((obs.properties.barometricPressure).map (· / 100)).getD 0
            windSpeed := (obs.properties.windSpeed).getD 0
            windDirection := (obs.properties.windDirection).getD 0
            visibility := ((obs.properties.visibility).map (· / 1000)).getD 0 } := by
  unfold observationToForecast at h
  by_cases hts : obs.properties.timestamp = ""
  · simp only [hts, ne_eq, not_true_eq_false, if_neg, ite_false,
      reduceIte] at h
    refine ⟨now, Or.inl ⟨hts, rfl⟩, ?_⟩
    injection h with h'
    exact h'.symm
  · simp only [hts, ne_eq, not_false_eq_true, if_pos, ite_true,
      reduceIte] at h
    cases hp : parse obs.properties.timestamp with
    | none => rw [hp] at h; exact absurd h (by simp)
    | some t =>
      rw [hp] at h
      refine ⟨t, Or.inr ⟨hts, rfl⟩, ?_⟩
      injection h with h'
      exact h'.symm

/-- `getForecast` once the three effectful stages have succeeded. -/
theorem getForecast_of_stages {parse : String → Option Int} {now : Int}
    {grid : Except String NWSPointResponse}
    {fetchF : String → Except String String}
    {decodeF : String → Except String NWSForecastResponse}
    {pt : NWSPointResponse} {raw : String} {resp : NWSForecastResponse}
    (days : Int)
    (hg : grid = .ok pt) (hf : fetchF pt.properties.forecast = .ok raw)
    (hd : decodeF raw = .ok resp) :
    getForecast parse now grid fetchF decodeF days =
      .ok ((resp.properties.periods.take
              (min (days * 2) (resp.properties.periods.length : Int)).toNat).filterMap
            (fun p => (periodToForecast parse now p).toOption)) := by
  unfold getForecast
  rw [hg]
  dsimp only
  rw [hf]
  dsimp only
  rw [hd]

theorem append_dash_ne_empty (a b : String) : a ++ "-" ++ b ≠ "" := by
  intro h
  have hlen := congrArg String.length h
  have h1 : ("-" : String).length = 1 := rfl
  simp [String.length_append, h1] at hlen

theorem foldl_appendIf_eq_filter :
    ∀ (xs parts : List String),
      xs.foldl (fun acc x => if x ≠ "" then acc ++ [x] else acc) parts
        = parts ++ xs.filter (fun t => t ≠ "")
  | [], parts => by simp
  | x :: xs, parts => by
    rw [List.foldl_cons, foldl_appendIf_eq_filter xs, List.filter_cons]
    by_cases h : x = "" <;> simp [h]

theorem clamp_ite_eq_max_min (q : ℚ) :
    (if q < 1/10 then (1/10 : ℚ) else if q > 19/20 then 19/20 else q)
      = max (1/10) (min (19/20) q) := by
  rcases lt_or_le q (1/10) with h | h
  · rw [if_pos h, min_eq_right (le_trans h.le (by norm_num)), max_eq_left h.le]
  · rw [if_neg (not_lt.mpr h)]
    rcases lt_or_le (19/20 : ℚ) q with h2 | h2
    · rw [if_pos h2, min_eq_left h2.le, max_eq_right (by norm_num)]
    · rw [if_neg (not_lt.mpr h2), min_eq_right h2, max_eq_right h]

/-- Closed form of `calculateConfidence`: exact-match short circuit, empty
default, then the overlap ratio clamped to [0.1, 0.95]. -/
theorem calculateConfidence_spec (original matched : String) :
    calculateConfidence original matched =
      if goToLower (goTrim original) = goToLower (goTrim matched) then 1
      else if (goFields (goToLower (goTrim original))).length = 0 then 1/2
      else max (1/10) (min (19/20)
        (((goFields (goToLower (goTrim original))).countP
            (fun w => (goFields (goToLower (goTrim matched))).contains w) : ℚ) /
          ((goFields (goToLower (goTrim original))).length : ℚ))) := by
  simp only [calculateConfidence]
  by_cases h1 : goToLower (goTrim original) = goToLower (goTrim matched)
  · rw [if_pos h1, if_pos h1]
  · rw [if_neg h1, if_neg h1]
    by_cases h2 : (goFields (goToLower (goTrim original))).length = 0
    · rw [if_pos h2, if_pos h2]
    · rw [if_neg h2, if_neg h2, clamp_ite_eq_max_min]

theorem append_ne_append_of_head {c1 c2 : Char} {s t : String} (a b : String)
    (hs : s.data.head? = some c1) (ht : t.data.head? = some c2)
    (hne : c1 ≠ c2) : s ++ a ≠ t ++ b := by
  intro h
  have hd : s.data ++ a.data = t.data ++ b.data := congrArg String.data h
  cases hsd : s.data with
  | nil => rw [hsd] at hs; exact absurd hs (by simp)
  | cons x xs =>
    cases htd : t.data with
    | nil => rw [htd] at ht; exact absurd ht (by simp)
    | cons y ys =>
      rw [hsd] at hs hd
      rw [htd] at ht hd
      have hx : x = c1 := by simpa using hs
      have hy : y = c2 := by simpa using ht
      have hxy : x = y := by simpa using congrArg List.head? hd
      exact hne (hx ▸ hy ▸ hxy)

/-! ## Claim theorems -/

/-- Claim C5 (confirmed): reading the three cases in order, the
forward-geocoding confidence is 1.0 when the lower-cased trimmed strings are
identical; exactly 0.5 when (they differ and) the trimmed original contains
no words; and otherwise the word-overlap ratio
common-words / total-words-in-original clamped to [0.1, 0.95]. Completely
disjoint word sets give exactly 0.1 ∈ [0.1, 0.5], and every result lies in
[0.1, 1.0]. -/
theorem claim_C5_confidence (original matched : String) :
    (goToLower (goTrim original) = goToLower (goTrim matched) →
      calculateConfidence original matched = 1) ∧
    (goToLower (goTrim original) ≠ goToLower (goTrim matched) →
      goFields (goToLower (goTrim original)) = [] →
      calculateConfidence original matched = 1/2) ∧
    (goToLower (goTrim original) ≠ goToLower (goTrim matched) →
      goFields (goToLower (goTrim original)) ≠ [] →
      calculateConfidence original matched =
        max (1/10) (min (19/20)
          (((goFields (goToLower (goTrim original))).countP
              (fun w => (goFields (goToLower (goTrim matched))).contains w) : ℚ) /
            ((goFields (goToLower (goTrim original))).length : ℚ)))) ∧
    ((∀ w ∈ goFields (goToLower (goTrim original)),
        w ∉ goFields (goToLower (goTrim matched))) →
      goToLower (goTrim original) ≠ goToLower (goTrim matched) →
      goFields (goToLower (goTrim original)) ≠ [] →
      calculateConfidence original matched = 1/10) ∧
    1/10 ≤ calculateConfidence original matched ∧
    calculateConfidence original matched ≤ 1 := by
  refine ⟨?_, ?_, ?_, ?_, ?_⟩
  · intro h
    rw [calculateConfidence_spec, if_pos h]
  · intro hne he
    rw [calculateConfidence_spec, if_neg hne, if_pos (by rw [he]; rfl)]
  · intro hne hne2
    rw [calculateConfidence_spec, if_neg hne,
      if_neg (by simpa [List.length_eq_zero] using hne2)]
  · intro hdisj hne hne2
    have hcount : (goFields (goToLower (goTrim original))).countP
        (fun w => (goFields (goToLower (goTrim matched))).contains w) = 0 := by
      rw [List.countP_eq_zero]
      intro a ha
      simpa [List.contains, List.elem_iff] using hdisj a ha
    rw [calculateConfidence_spec, if_neg hne,
      if_neg (by simpa [List.length_eq_zero] using hne2), hcount]
    rw [show ((0 : ℕ) : ℚ) / ((goFields (goToLower (goTrim original))).length : ℚ)
        = 0 by simp]
    rw [min_eq_right (by norm_num), max_eq_left (by norm_num)]
  · rw [calculateConfidence_spec]
    split_ifs with h1 h2
    · norm_num
    · norm_num
    · constructor
      · exact le_max_left _ _
      · exact max_le (by norm_num)
          (le_trans (min_le_left _ _) (by norm_num))

/-- Witness for C5 at the repository's own test vectors: exact match → 1,
empty original → 0.5, partial overlap (2 of 3 words) → 2/3, disjoint → 0.1. -/
theorem claim_C5_confidence_witness :
    calculateConfidence "123 Main St" "123 Main St" = 1 ∧
    calculateConfidence "" "123 Main St" = 1/2 ∧
    calculateConfidence "123 Main Street" "123 Main St" = 2/3 ∧
    calculateConfidence "123 Oak Ave" "456 Pine St" = 1/10 := by
  refine ⟨(claim_C5_confidence _ _).1 (by decide),
          (claim_C5_confidence _ _).2.1 (by decide) (by decide),
          ((claim_C5_confidence _ _).2.2.1 (by decide) (by decide)).trans ?_,
          (claim_C5_confidence _ _).2.2.2.1 (by decide) (by decide) (by decide)⟩
  have h1 : (goFields (goToLower (goTrim "123 Main Street"))).countP
      (fun w => (goFields (goToLower (goTrim "123 Main St"))).contains w)
      = 2 := rfl
  have h2 : (goFields (goToLower (goTrim "123 Main Street"))).length = 3 := rfl
  rw [h1, h2]
  rw [show ((2 : ℕ) : ℚ) / ((3 : ℕ) : ℚ) = 2/3 by norm_num]
  rw [min_eq_right (by norm_num), max_eq_right (by norm_num)]

/-- Claim C9 (confirmed): every `RequestCache` operation returns exactly the
underlying store's result for the key `"prefix:key"` — or the bare key when
the prefix is empty — and `Clear`/`Close` forward directly; since the results
are equal, the store's errors propagate unchanged with no recovery, retry or
transformation. -/
theorem claim_C9_cache_forwarding (store : KVStore) (pfx key : String)
    (value : List Nat) (ttl : Int) :
    (RequestCache.mk store pfx).Get key
        = store.Get (if pfx = "" then key else pfx ++ ":" ++ key) ∧
    (RequestCache.mk store pfx).Set key value ttl
        = store.Set (if pfx = "" then key else pfx ++ ":" ++ key) value ttl ∧
    (RequestCache.mk store pfx).Delete key
        = store.Delete (if pfx = "" then key else pfx ++ ":" ++ key) ∧
    (RequestCache.mk store pfx).Exists key
        = store.Exists (if pfx = "" then key else pfx ++ ":" ++ key) ∧
    (RequestCache.mk store pfx).SetNX key value ttl
        = store.SetNX (if pfx = "" then key else pfx ++ ":" ++ key) value ttl ∧
    (RequestCache.mk store pfx).GetTTL key
        = store.GetTTL (if pfx = "" then key else pfx ++ ":" ++ key) ∧
    (RequestCache.mk store pfx).Clear = store.Clear ∧
    (RequestCache.mk store pfx).Close = store.Close :=
  ⟨rfl, rfl, rfl, rfl, rfl, rfl, rfl, rfl⟩

/-- Claim C6 (confirmed): the structured address line is the space-join of
exactly the non-empty components in the fixed order house-range,
pre-direction, pre-type, street name, suffix type, suffix direction,
pre-qualifier, suffix-qualifier, with the house range rendered
`"{from}-{to}"` when the to-address is non-empty and differs from the
from-address and `"{from}"` otherwise; in particular
`{from:"100", to:"199", street:"Oak", suffix:"Ave"}` yields
`"100-199 Oak Ave"` and `{street:"Broadway"}` alone yields `"Broadway"`. -/
theorem claim_C6_address_line :
    (∀ c : CensusAddressComponents,
      buildAddressLine1 c = String.intercalate " " (addressPartsSpec c)) ∧
    buildAddressLine1 { fromAddress := "100", toAddress := "199",
                        streetName := "Oak", suffixType := "Ave" }
      = "100-199 Oak Ave" ∧
    buildAddressLine1 { streetName := "Broadway" } = "Broadway" := by
  refine ⟨?_, by decide, by decide⟩
  intro c
  show String.intercalate " "
      (List.foldl (fun acc x => if x ≠ "" then acc ++ [x] else acc)
        (if c.fromAddress ≠ "" then
          if c.toAddress ≠ "" ∧ c.toAddress ≠ c.fromAddress then
            ([] : List String) ++ [c.fromAddress ++ "-" ++ c.toAddress]
          else ([] : List String) ++ [c.fromAddress]
        else ([] : List String))
        [c.preDirection, c.preType, c.streetName, c.suffixType,
         c.suffixDirection, c.preQualifier, c.suffixQualifier])
      = String.intercalate " " (addressPartsSpec c)
  rw [foldl_appendIf_eq_filter]
  unfold addressPartsSpec houseRangeSpec
  rw [List.filter_cons]
  by_cases hfrom : c.fromAddress = ""
  · simp [hfrom, List.filter_cons]
  · by_cases hinner : c.toAddress ≠ "" ∧ c.toAddress ≠ c.fromAddress
    · simp [hfrom, hinner, append_dash_ne_empty, List.filter_cons]
    · simp [hfrom, hinner, List.filter_cons]

/-- Claim C7 (confirmed): forward geocoding fails with the "no results" error
whenever zero usable matches remain after per-match filtering, never returns
successfully with an empty place list, and the "no results" message is
distinct from every transport-error and decode-error message. -/
theorem claim_C7_geocode_no_results (now : Int)
    (fetchRes : Except String String)
    (decode : String → Except String CensusGeocodeResponse)
    (address : String) :
    (∀ raw resp, fetchRes = .ok raw → decode raw = .ok resp →
      resp.result.addressMatches = [] →
      geocodeAddress now fetchRes decode address =
        .error ("no geocoding results found for address: " ++ address)) ∧
    (∀ places, geocodeAddress now fetchRes decode address = .ok places →
      places ≠ []) ∧
    (∀ e, fetchRes = .error e →
      geocodeAddress now fetchRes decode address =
        .error ("geocoding request failed: " ++ e)) ∧
    (∀ raw e, fetchRes = .ok raw → decode raw = .error e →
      geocodeAddress now fetchRes decode address =
        .error ("failed to parse geocoding response: " ++ e)) ∧
    (∀ e, ("no geocoding results found for address: " ++ address) ≠
        ("geocoding request failed: " ++ e)) ∧
    (∀ e, ("no geocoding results found for address: " ++ address) ≠
        ("failed to parse geocoding response: " ++ e)) := by
  refine ⟨?_, ?_, ?_, ?_, ?_, ?_⟩
  · intro raw resp hf hd hm
    unfold geocodeAddress
    rw [hf]
    dsimp only
    rw [hd]
    dsimp only
    rw [hm]
    rfl
  · intro places h
    unfold geocodeAddress at h
    cases hf : fetchRes with
    | error e => rw [hf] at h; exact absurd h (by simp)
    | ok raw =>
      rw [hf] at h
      dsimp only at h
      cases hd : decode raw with
      | error e => rw [hd] at h; exact absurd h (by simp)
      | ok resp =>
        rw [hd] at h
        dsimp only at h
        by_cases hl : (resp.result.addressMatches.filterMap
            (fun m => (addressMatchToPlace now m address).toOption)).length = 0
        · rw [if_pos hl] at h
          exact absurd h (by simp)
        · rw [if_neg hl] at h
          injection h with h'
          intro hnil
          exact hl (by rw [h', hnil]; rfl)
  · intro e he
    unfold geocodeAddress
    rw [he]
  · intro raw e hf hd
    unfold geocodeAddress
    rw [hf]
    dsimp only
    rw [hd]
  · intro e
    exact append_ne_append_of_head _ _ rfl rfl (by decide)
  · intro e
    exact append_ne_append_of_head _ _ rfl rfl (by decide)

/-- Witness for C7: a decoded response with zero address matches makes
`GeocodeAddress` fail with the "no results" error. -/
theorem claim_C7_geocode_no_results_witness :
    geocodeAddress 0 (.ok "") (fun _ => .ok ⟨⟨[]⟩⟩) "X" =
      .error ("no geocoding results found for address: " ++ "X") :=
  (claim_C7_geocode_no_results 0 (.ok "") (fun _ => .ok ⟨⟨[]⟩⟩) "X").1
    "" ⟨⟨[]⟩⟩ rfl rfl rfl

/-- Claim C8 (confirmed): reverse geocoding fails whenever the decoded
response has zero matches; on success the Place is built from only the first
match (the tail is irrelevant), and its confidence is exactly 0.9 for every
input. -/
theorem claim_C8_reverse_geocode (fmtF : ℚ → String) (now : Int)
    (fetchRes : Except String String)
    (decode : String → Except String CensusReverseGeocodeResponse)
    (lat lon : ℚ) :
    (∀ raw resp, fetchRes = .ok raw → decode raw = .ok resp →
      resp.result.addressMatches = [] →
      reverseGeocode fmtF now fetchRes decode lat lon =
        .error ("no reverse geocoding results found for coordinates: "
          ++ fmtF lat ++ ", " ++ fmtF lon)) ∧
    (∀ raw resp m rest, fetchRes = .ok raw → decode raw = .ok resp →
      resp.result.addressMatches = m :: rest →
      reverseGeocode fmtF now fetchRes decode lat lon =
        reverseMatchToPlace now m lat lon) ∧
    (∀ p, reverseGeocode fmtF now fetchRes decode lat lon = .ok p →
      p.confidence = 9/10) := by
  refine ⟨?_, ?_, ?_⟩
  · intro raw resp hf hd hm
    unfold reverseGeocode
    rw [hf]
    dsimp only
    rw [hd]
    dsimp only
    rw [hm]
  · intro raw resp m rest hf hd hm
    unfold reverseGeocode
    rw [hf]
    dsimp only
    rw [hd]
    dsimp only
    rw [hm]
  · intro p h
    unfold reverseGeocode at h
    cases hf : fetchRes with
    | error e => rw [hf] at h; exact absurd h (by simp)
    | ok raw =>
      rw [hf] at h
      dsimp only at h
      cases hd : decode raw with
      | error e => rw [hd] at h; exact absurd h (by simp)
      | ok resp =>
        rw [hd] at h
        dsimp only at h
        cases hm : resp.result.addressMatches with
        | nil => rw [hm] at h; exact absurd h (by simp)
        | cons m rest =>
          rw [hm] at h
          dsimp only [reverseMatchToPlace] at h
          injection h with h'
          rw [← h']

/-- Witness for C8: a single-match response reverse-geocodes to the Place
built from that match, whose confidence is 0.9. -/
theorem claim_C8_reverse_geocode_witness :
    reverseGeocode (fun _ => "z") 0 (.ok "")
      (fun _ => .ok ⟨⟨[{ matchedAddress := "A" }]⟩⟩) 1 2
      = reverseMatchToPlace 0 { matchedAddress := "A" } 1 2 ∧
    ({ displayName := "A", country := "United States", countryCode := "US",
       latitude := 1, longitude := 2, placeType := "address",
       confidence := 9/10, source := "Census" } : Place).confidence
      = 9/10 := by
  constructor
  · exact (claim_C8_reverse_geocode (fun _ => "z") 0 (.ok "")
      (fun _ => .ok ⟨⟨[{ matchedAddress := "A" }]⟩⟩) 1 2).2.1
      "" ⟨⟨[{ matchedAddress := "A" }]⟩⟩ { matchedAddress := "A" } [] rfl rfl rfl
  · exact (claim_C8_reverse_geocode (fun _ => "z") 0 (.ok "")
      (fun _ => .ok ⟨⟨[{ matchedAddress := "A" }]⟩⟩) 1 2).2.2 _ rfl

/-- A period with an unparsable start or end timestamp converts to `none`. -/
theorem periodToForecast_toOption_eq_none {parse : String → Option Int}
    {now : Int} {p : NWSForecastPeriod}
    (h : parse p.startTime = none ∨ parse p.endTime = none) :
    (periodToForecast parse now p).toOption = none := by
  unfold periodToForecast
  rcases h with hb | hb
  · rw [hb]
    rfl
  · cases hs : parse p.startTime with
    | none => rfl
    | some t =>
      dsimp only
      rw [hb]
      rfl

/-- Claim C3 (confirmed): with the three effectful stages successful and a
non-negative requested day count, `GetForecast` examines exactly
min(days×2, number of periods) periods, returns one canonical Forecast per
examined period whose start and end timestamps both parse, and drops a
period with unparsable timestamps individually without affecting the others. -/
theorem claim_C3_forecast_cap (parse : String → Option Int) (now : Int)
    (grid : Except String NWSPointResponse)
    (fetchF : String → Except String String)
    (decodeF : String → Except String NWSForecastResponse)
    (pt : NWSPointResponse) (raw : String) (resp : NWSForecastResponse)
    (days : Int)
    (hg : grid = .ok pt) (hf : fetchF pt.properties.forecast = .ok raw)
    (hd : decodeF raw = .ok resp) (hdays : 0 ≤ days) :
    (resp.properties.periods.take
        (min (days * 2) (resp.properties.periods.length : Int)).toNat).length
      = min (days * 2).toNat resp.properties.periods.length ∧
    getForecast parse now grid fetchF decodeF days =
      .ok ((resp.properties.periods.take
          (min (days * 2) (resp.properties.periods.length : Int)).toNat).filterMap
        (fun p => (periodToForecast parse now p).toOption)) ∧
    ((resp.properties.periods.take
        (min (days * 2) (resp.properties.periods.length : Int)).toNat).filterMap
      (fun p => (periodToForecast parse now p).toOption)).length
      = (resp.properties.periods.take
          (min (days * 2) (resp.properties.periods.length : Int)).toNat).countP
        (fun p => (parse p.startTime).isSome && (parse p.endTime).isSome) ∧
    (∀ pre p post,
      resp.properties.periods.take
          (min (days * 2) (resp.properties.periods.length : Int)).toNat
        = pre ++ p :: post →
      (parse p.startTime = none ∨ parse p.endTime = none) →
      (resp.properties.periods.take
          (min (days * 2) (resp.properties.periods.length : Int)).toNat).filterMap
        (fun q => (periodToForecast parse now q).toOption)
        = pre.filterMap (fun q => (periodToForecast parse now q).toOption)
          ++ post.filterMap (fun q => (periodToForecast parse now q).toOption)) := by
  refine ⟨?_, getForecast_of_stages days hg hf hd, ?_, ?_⟩
  · rw [List.length_take]
    omega
  · rw [length_filterMap_eq_countP]
    apply List.countP_congr
    intro p _
    rw [periodToForecast_isSome parse now p]
  · intro pre p post htake hbad
    rw [htake, List.filterMap_append, List.filterMap_cons,
      periodToForecast_toOption_eq_none hbad]

/-- Witness for C3: requesting days=1 against a 2-period response whose
timestamps all parse yields exactly 2 canonical Forecasts. -/
theorem claim_C3_forecast_cap_witness :
    (getForecast (fun _ => some 0) 0 (.ok ⟨{ forecast := "u" }⟩)
        (fun _ => .ok "") (fun _ => .ok ⟨⟨[{ startTime := "a", endTime := "b" },
            { startTime := "c", endTime := "d" }]⟩⟩) 1).map List.length
      = .ok 2 := by
  have h := (claim_C3_forecast_cap (fun _ => some 0) 0
      (.ok ⟨{ forecast := "u" }⟩) (fun _ => .ok "")
      (fun _ => .ok ⟨⟨[{ startTime := "a", endTime := "b" },
          { startTime := "c", endTime := "d" }]⟩⟩)
      ⟨{ forecast := "u" }⟩ "" ⟨⟨[{ startTime := "a", endTime := "b" },
          { startTime := "c", endTime := "d" }]⟩⟩ 1
      rfl rfl rfl (by norm_num)).2.1
  rw [h]
  rfl

/-- Claim C10 (confirmed): `GetForecast` errors only when the grid-point
lookup, the forecast fetch, or the top-level decode fails; a non-positive
day count, an empty period list, or all-unparsable periods produce `ok []`
rather than an error — in contrast to forward geocoding, where a decoded
response with zero candidates is an error. -/
theorem claim_C10_forecast_error_surface (parse : String → Option Int)
    (now : Int) (grid : Except String NWSPointResponse)
    (fetchF : String → Except String String)
    (decodeF : String → Except String NWSForecastResponse) (days : Int) :
    (∀ e, getForecast parse now grid fetchF decodeF days = .error e →
      (∃ e1, grid = .error e1) ∨
      (∃ pt e2, grid = .ok pt ∧ fetchF pt.properties.forecast = .error e2) ∨
      (∃ pt raw e3, grid = .ok pt ∧ fetchF pt.properties.forecast = .ok raw ∧
        decodeF raw = .error e3)) ∧
    (∀ pt raw resp, grid = .ok pt → fetchF pt.properties.forecast = .ok raw →
      decodeF raw = .ok resp → days ≤ 0 →
      getForecast parse now grid fetchF decodeF days = .ok []) ∧
    (∀ pt raw resp, grid = .ok pt → fetchF pt.properties.forecast = .ok raw →
      decodeF raw = .ok resp → resp.properties.periods = [] →
      getForecast parse now grid fetchF decodeF days = .ok []) ∧
    (∀ pt raw resp, grid = .ok pt → fetchF pt.properties.forecast = .ok raw →
      decodeF raw = .ok resp →
      (∀ p ∈ resp.properties.periods,
        parse p.startTime = none ∨ parse p.endTime = none) →
      getForecast parse now grid fetchF decodeF days = .ok []) ∧
    (∀ (now2 : Int) (raw2 : String)
      (dec2 : String → Except String CensusGeocodeResponse)
      (addr : String) (resp2 : CensusGeocodeResponse),
      dec2 raw2 = .ok resp2 → resp2.result.addressMatches = [] →
      geocodeAddress now2 (.ok raw2) dec2 addr =
        .error ("no geocoding results found for address: " ++ addr)) := by
  refine ⟨?_, ?_, ?_, ?_, ?_⟩
  · intro e he
    unfold getForecast at he
    cases hgr : grid with
    | error e1 => exact Or.inl ⟨e1, rfl⟩
    | ok pt =>
      rw [hgr] at he
      dsimp only at he
      cases hfr : fetchF pt.properties.forecast with
      | error e2 => exact Or.inr (Or.inl ⟨pt, e2, rfl, hfr⟩)
      | ok raw =>
        rw [hfr] at he
        dsimp only at he
        cases hdr : decodeF raw with
        | error e3 => exact Or.inr (Or.inr ⟨pt, raw, e3, rfl, hfr, hdr⟩)
        | ok resp =>
          rw [hdr] at he
          exact absurd he (by simp)
  · intro pt raw resp h1 h2 h3 hdays
    rw [getForecast_of_stages days h1 h2 h3]
    have hz : (min (days * 2) (resp.properties.periods.length : Int)).toNat
        = 0 := by omega
    rw [hz]
    rfl
  · intro pt raw resp h1 h2 h3 hp
    rw [getForecast_of_stages days h1 h2 h3, hp]
    simp
  · intro pt raw resp h1 h2 h3 hbad
    rw [getForecast_of_stages days h1 h2 h3]
    have : ∀ q ∈ resp.properties.periods.take
        (min (days * 2) (resp.properties.periods.length : Int)).toNat,
        (periodToForecast parse now q).toOption = none := by
      intro q hq
      exact periodToForecast_toOption_eq_none
        (hbad q (List.take_subset _ _ hq))
    simp only [Except.ok.injEq, List.filterMap_eq_nil_iff]
    exact this
  · intro now2 raw2 dec2 addr resp2 hdec hm
    unfold geocodeAddress
    dsimp only
    rw [hdec]
    dsimp only
    rw [hm]
    rfl

/-- Witness for C10: a negative day count and an all-unparsable response both
yield `ok []` (no error). -/
theorem claim_C10_forecast_error_surface_witness :
    getForecast (fun _ => none) 0 (.ok ⟨{ forecast := "u" }⟩)
        (fun _ => .ok "")
        (fun _ => .ok ⟨⟨[{ startTime := "a", endTime := "b" }]⟩⟩) (-1)
      = .ok [] ∧
    getForecast (fun _ => none) 0 (.ok ⟨{ forecast := "u" }⟩)
        (fun _ => .ok "")
        (fun _ => .ok ⟨⟨[{ startTime := "a", endTime := "b" }]⟩⟩) 3
      = .ok [] := by
  constructor
  · exact (claim_C10_forecast_error_surface (fun _ => none) 0
      (.ok ⟨{ forecast := "u" }⟩) (fun _ => .ok "")
      (fun _ => .ok ⟨⟨[{ startTime := "a", endTime := "b" }]⟩⟩) (-1)).2.1
      ⟨{ forecast := "u" }⟩ "" ⟨⟨[{ startTime := "a", endTime := "b" }]⟩⟩
      rfl rfl rfl (by norm_num)
  · exact (claim_C10_forecast_error_surface (fun _ => none) 0
      (.ok ⟨{ forecast := "u" }⟩) (fun _ => .ok "")
      (fun _ => .ok ⟨⟨[{ startTime := "a", endTime := "b" }]⟩⟩) 3).2.2.2.1
      ⟨{ forecast := "u" }⟩ "" ⟨⟨[{ startTime := "a", endTime := "b" }]⟩⟩
      rfl rfl rfl (fun p _ => Or.inl rfl)

/-- Claim C4 (confirmed): whenever the observation's timestamp is empty or
parses, `observationToForecast` succeeds, every absent optional numeric field
maps to the Forecast's zero value, a present pressure value v maps to v/100
(Pa→hPa), a present visibility value v maps to v/1000 (m→km), and every
other present numeric value passes through unchanged. -/
theorem claim_C4_observation_mapping (parse : String → Option Int) (now : Int)
    (obs : NWSObservationResponse)
    (hts : obs.properties.timestamp = ""
      ∨ (parse obs.properties.timestamp).isSome) :
    (observationToForecast parse now obs).toOption.map Forecast.temperature
      = some ((obs.properties.temperature).getD 0) ∧
    (observationToForecast parse now obs).toOption.map Forecast.humidity
      = some ((obs.properties.relativeHumidity).getD 0) ∧
    (observationToForecast parse now obs).toOption.map Forecast.pressure
      = some (((obs.properties.barometricPressure).map (fun v => v / 100)).getD 0) ∧
    (observationToForecast parse now obs).toOption.map Forecast.windSpeed
      = some ((obs.properties.windSpeed).getD 0) ∧
    (observationToForecast parse now obs).toOption.map Forecast.windDirection
      = some ((obs.properties.windDirection).getD 0) ∧
    (observationToForecast parse now obs).toOption.map Forecast.visibility
      = some (((obs.properties.visibility).map (fun v => v / 1000)).getD 0) := by
  by_cases hempty : obs.properties.timestamp = ""
  · simp [observationToForecast, hempty, Except.toOption]
  · rcases hts with h | h
    · exact absurd h hempty
    · rcases Option.isSome_iff_exists.mp h with ⟨t, ht⟩
      simp [observationToForecast, hempty, ht, Except.toOption]

/-- Witness for C4: with pressure 101325 Pa and visibility 16000 m present
and all other numeric fields absent, the mapping yields 101325/100 hPa
(= 1013.25 exactly), 16000/1000 km (= 16 exactly), and zeros elsewhere. -/
theorem claim_C4_observation_mapping_witness :
    ((observationToForecast (fun _ => some 7) 0
        ⟨{ timestamp := "2024-01-15T12:00:00-05:00",
           barometricPressure := some 101325,
           visibility := some 16000 }⟩).toOption.map Forecast.temperature
      = some 0 ∧
    (observationToForecast (fun _ => some 7) 0
        ⟨{ timestamp := "2024-01-15T12:00:00-05:00",
           barometricPressure := some 101325,
           visibility := some 16000 }⟩).toOption.map Forecast.humidity
      = some 0 ∧
    (observationToForecast (fun _ => some 7) 0
        ⟨{ timestamp := "2024-01-15T12:00:00-05:00",
           barometricPressure := some 101325,
           visibility := some 16000 }⟩).toOption.map Forecast.pressure
      = some (101325 / 100) ∧
    (observationToForecast (fun _ => some 7) 0
        ⟨{ timestamp := "2024-01-15T12:00:00-05:00",
           barometricPressure := some 101325,
           visibility := some 16000 }⟩).toOption.map Forecast.windSpeed
      = some 0 ∧
    (observationToForecast (fun _ => some 7) 0
        ⟨{ timestamp := "2024-01-15T12:00:00-05:00",
           barometricPressure := some 101325,
           visibility := some 16000 }⟩).toOption.map Forecast.windDirection
      = some 0 ∧
    (observationToForecast (fun _ => some 7) 0
        ⟨{ timestamp := "2024-01-15T12:00:00-05:00",
           barometricPressure := some 101325,
           visibility := some 16000 }⟩).toOption.map Forecast.visibility
      = some (16000 / 1000)) ∧
    (101325 : ℚ) / 100 = 4053/4 ∧ (16000 : ℚ) / 1000 = 16 := by
  refine ⟨claim_C4_observation_mapping (fun _ => some 7) 0
    ⟨{ timestamp := "2024-01-15T12:00:00-05:00",
       barometricPressure := some 101325,
       visibility := some 16000 }⟩ (Or.inr rfl), by norm_num, by norm_num⟩

/-- Claim C1 counterexample: the adapter performs no range validation, so an
upstream observation it accepts without error (here: relative humidity 150,
all other values absent, empty timestamp) produces a canonical Forecast whose
humidity is 150 ∉ [0,100], violating the claimed invariant. -/
theorem claim_C1_counterexample :
    getCurrentWeather (fun _ => none) 0 (.ok ⟨{}⟩) (fun _ _ _ => .ok ["KTOP"])
        (fun _ => .ok ⟨{ relativeHumidity := some 150 }⟩)
      = .ok { sourceProvider := "NWS", humidity := 150 } ∧
    ¬ forecastInvariant { sourceProvider := "NWS", humidity := 150 } := by
  constructor
  · rfl
  · intro h
    rcases h with ⟨h1, h2, h3, h4⟩
    exact absurd h3 (by norm_num)

/-- Claim C1 (corrected): the invariant holds conditionally. An
observation-derived Forecast satisfies the invariant whenever the present
upstream values are themselves in range (temperature ≥ −273.15, humidity
∈ [0,100], wind direction ∈ [0,360); cloud cover is never set and stays 0);
a period-derived Forecast always satisfies the humidity, cloud-cover and
wind-direction bounds, and satisfies the temperature bound whenever the
converted period temperature is ≥ −273.15 °C. -/
theorem claim_C1_invariant_conditional (parse : String → Option Int)
    (now : Int) :
    (∀ obs f, observationToForecast parse now obs = .ok f →
      -27315/100 ≤ (obs.properties.temperature).getD 0 →
      0 ≤ (obs.properties.relativeHumidity).getD 0 →
      (obs.properties.relativeHumidity).getD 0 ≤ 100 →
      0 ≤ (obs.properties.windDirection).getD 0 →
      (obs.properties.windDirection).getD 0 < 360 →
      forecastInvariant f) ∧
    (∀ p f, periodToForecast parse now p = .ok f →
      -27315/100 ≤ (if p.temperatureUnit = "F"
          then ((p.temperature : ℚ) - 32) * 5 / 9 else (p.temperature : ℚ)) →
      forecastInvariant f) := by
  constructor
  · intro obs f h htemp hh0 hh100 hd0 hd360
    obtain ⟨t, -, hf⟩ := observationToForecast_eq_ok h
    subst hf
    exact ⟨htemp, hh0, hh100, by norm_num, by norm_num, hd0, hd360⟩
  · intro p f h htemp
    obtain ⟨s, e, hs, he, hf⟩ := periodToForecast_eq_ok h
    subst hf
    exact ⟨htemp, by norm_num, by norm_num, by norm_num, by norm_num,
      (parseWindDirection_range p.windDirection).1,
      (parseWindDirection_range p.windDirection).2⟩

/-- Witness for the corrected C1: an in-range observation (the repository's
own test vector) yields a Forecast satisfying the invariant. -/
theorem claim_C1_invariant_conditional_witness :
    forecastInvariant
      { sourceProvider := "NWS", forecastTime := 7, validTime := 7,
        description := "Clear skies", createdAt := 7, updatedAt := 7,
        temperature := 41/2, humidity := 65, pressure := 101325 / 100,
        windSpeed := 26/5, windDirection := 180,
        visibility := 16000 / 1000 } :=
  (claim_C1_invariant_conditional (fun _ => none) 7).1
    ⟨{ temperature := some (41/2), relativeHumidity := some 65,
       barometricPressure := some 101325, windSpeed := some (26/5),
       windDirection := some 180, visibility := some 16000,
       textDescription := "Clear skies" }⟩
    _ rfl (by norm_num) (by norm_num) (by norm_num) (by norm_num) (by norm_num)

/-- Claim C2 counterexample: the claim says the wind speed equals the first
whitespace-delimited token parsed as a numeric magnitude times 0.44704; but
for the single-token string "5" the code leaves wind speed at 0 (it requires
at least two tokens), while 5 × 0.44704 ≠ 0. -/
theorem claim_C2_counterexample :
    ((periodToForecast (fun _ => some 0) 0
        { startTime := "a", endTime := "b", windSpeed := "5" }).toOption.map
      Forecast.windSpeed) = some 0 ∧
    (5 : ℚ) * (44704/100000) ≠ 0 := by
  constructor
  · rfl
  · norm_num

/-- Claim C2 (corrected): the wind speed equals the first token parsed as an
integer (strconv.Atoi) times 0.44704 only when the free-text field splits
into at least two whitespace-delimited tokens and Atoi succeeds; otherwise
(including single-token strings and non-integer magnitudes) it is left at
exactly zero without error. Wind direction holds as claimed: the code is the
lookup of the upper-cased input in the documented 16-point table, every
valid abbreviation (case-insensitively) maps to its exact documented degree
value, and every other input yields 0, never an error. -/
theorem claim_C2_wind_parsing (parse : String → Option Int) (now : Int) :
    (∀ p f, periodToForecast parse now p = .ok f →
      f.windSpeed =
        match goFields p.windSpeed with
        | t :: _ :: _ =>
          (match goAtoi t with
          | some speed => (speed : ℚ) * (44704/100000)
          | none => 0)
        | _ => 0) ∧
    (∀ p f, periodToForecast parse now p = .ok f →
      f.windDirection = parseWindDirection p.windDirection) ∧
    (∀ s, parseWindDirection s = (compassTable.lookup (goToUpper s)).getD 0) ∧
    (∀ s d, (goToUpper s, d) ∈ compassTable → parseWindDirection s = d) ∧
    (∀ s, goToUpper s ∉ compassTable.map Prod.fst →
      parseWindDirection s = 0) := by
  have hlook : ∀ s, parseWindDirection s
      = (compassTable.lookup (goToUpper s)).getD 0 := by
    intro s
    unfold parseWindDirection
    rw [show compassTable = nwsDirections from rfl]
    cases nwsDirections.lookup (goToUpper s) <;> rfl
  refine ⟨?_, ?_, hlook, ?_, ?_⟩
  · intro p f h
    obtain ⟨s, e, hs, he, hf⟩ := periodToForecast_eq_ok h
    subst hf
    by_cases hws : p.windSpeed = ""
    · dsimp only
      rw [hws]
      rfl
    · dsimp only
      rw [if_pos hws]
  · intro p f h
    obtain ⟨s, e, hs, he, hf⟩ := periodToForecast_eq_ok h
    subst hf
    rfl
  · intro s d hmem
    simp only [compassTable, List.mem_cons, List.not_mem_nil, or_false,
      Prod.mk.injEq] at hmem
    rcases hmem with ⟨h1, h2⟩ | ⟨h1, h2⟩ | ⟨h1, h2⟩ | ⟨h1, h2⟩ | ⟨h1, h2⟩ |
      ⟨h1, h2⟩ | ⟨h1, h2⟩ | ⟨h1, h2⟩ | ⟨h1, h2⟩ | ⟨h1, h2⟩ | ⟨h1, h2⟩ |
      ⟨h1, h2⟩ | ⟨h1, h2⟩ | ⟨h1, h2⟩ | ⟨h1, h2⟩ | ⟨h1, h2⟩ <;>
      (rw [hlook, h1, h2]; rfl)
  · intro s hnot
    rw [hlook, lookup_eq_none_of_not_mem_keys hnot]
    rfl

/-- Witness for the corrected C2: "10 mph" parses to 10 × 0.44704 m/s,
"sw" maps case-insensitively to 225°, "Unknown" defaults to 0°. -/
theorem claim_C2_wind_parsing_witness :
    ({ sourceProvider := "NWS", forecastTime := 0, validTime := 0,
       description := "", createdAt := 0, updatedAt := 0,
       temperature := ((0 : Int) : ℚ),
       windSpeed := ((10 : Int) : ℚ) * (44704/100000),
       windDirection := parseWindDirection "sw" } : Forecast).windSpeed
      = ((10 : Int) : ℚ) * (44704/100000) ∧
    parseWindDirection "sw" = 225 ∧
    parseWindDirection "Unknown" = 0 := by
  refine ⟨?_, ?_, ?_⟩
  · have h := (claim_C2_wind_parsing (fun _ => some 0) 0).1
      { startTime := "a", endTime := "b", windSpeed := "10 mph",
        windDirection := "sw" }
      { sourceProvider := "NWS", forecastTime := 0, validTime := 0,
        description := "", createdAt := 0, updatedAt := 0,
        temperature := ((0 : Int) : ℚ),
        windSpeed := ((10 : Int) : ℚ) * (44704/100000),
        windDirection := parseWindDirection "sw" } rfl
    exact h
  · exact (claim_C2_wind_parsing (fun _ => some 0) 0).2.2.2.1 "sw" 225
      (by rw [show goToUpper "sw" = "SW" from rfl]; simp [compassTable])
  · exact (claim_C2_wind_parsing (fun _ => some 0) 0).2.2.2.2 "Unknown"
      (by decide)

end Weather
